import Mathlib

/-!
Shallow embedding of the DJ-Listener client (src/app.py) in Lean 4.

The Python class DJClient is modelled as a state record `ClientState`
together with a state-passing monad `M` that also records observable
effects (log lines, network emissions, playback-sink commands) and
models Python exceptions as an `Except` result.  Python exceptions leave
already-performed state mutations and effects in place, so a method
returns the partial state and effect trace alongside the error.

Dynamic (duck-typed) Python values appearing in event payloads and
replies are modelled by the inductive type `PyVal`.
-/

namespace DJ

/-- Dynamic Python value, covering the shapes the client manipulates:
None, booleans, integers, strings, string-keyed dicts and lists. -/
inductive PyVal where
  | none
  | bool (b : Bool)
  | int (n : Int)
  | str (s : String)
  | dict (entries : List (String × PyVal))
  | list (items : List PyVal)


/-- Python exceptions raised by the client code. `notConnected`,
`notInRoom` and `djError` are the DJClient exception classes; the
remaining constructors model built-in Python runtime errors. -/
inductive PyErr where
  | notConnected (msg : Option String)
  | notInRoom (msg : Option String)
  | djError (v : PyVal)
  | keyError (k : String)
  | typeError
  | attributeError


/-- Python truthiness of a value. -/
def PyVal.truthy : PyVal → Bool
  | .none => false
  | .bool b => b
  | .int n => n != 0
  | .str s => s != ""
  | .dict es => !es.isEmpty
  | .list xs => !xs.isEmpty

/-- Lookup of a key in an insertion-ordered association list. -/
def lookupKey : List (String × PyVal) → String → Option PyVal
  | [], _ => Option.none
  | (k', v) :: rest, k => if k = k' then some v else lookupKey rest k

/-- Assignment of a key in an insertion-ordered association list:
replaces in place when present, appends when absent (Python dict
semantics). -/
def setKey : List (String × PyVal) → String → PyVal → List (String × PyVal)
  | [], k, v => [(k, v)]
  | (k', v') :: rest, k, v =>
      if k = k' then (k, v) :: rest else (k', v') :: setKey rest k v

/-- Python subscript read `d[k]`: KeyError when the key is absent,
TypeError when the value is not a dict. -/
def PyVal.getItem : PyVal → String → Except PyErr PyVal
  | .dict es, k =>
      match lookupKey es k with
      | some v => .ok v
      | Option.none => .error (.keyError k)
  | _, _ => .error .typeError

/-- Python subscript write `d[k] = v`: TypeError when the target does
not support item assignment. -/
def PyVal.setItem : PyVal → String → PyVal → Except PyErr PyVal
  | .dict es, k, v => .ok (.dict (setKey es k v))
  | _, _, _ => .error .typeError

/-- Removal of leading and trailing whitespace from a character list. -/
def stripChars (cs : List Char) : List Char :=
  ((cs.dropWhile Char.isWhitespace).reverse.dropWhile Char.isWhitespace).reverse

/-- Python `str.strip()` with no argument: drops whitespace from both
ends. -/
def pyStrip (s : String) : String := String.mk (stripChars s.data)

/-- Python `.strip()`: defined on strings, AttributeError otherwise. -/
def PyVal.strip : PyVal → Except PyErr PyVal
  | .str s => .ok (.str (pyStrip s))
  | _ => .error .attributeError

/-- Python `isinstance(v, dict)`. -/
def PyVal.isDict : PyVal → Bool
  | .dict _ => true
  | _ => false

/-- Python `k in d.keys()` on a dict; `false` on non-dicts (only ever
evaluated behind an `isinstance(_, dict)` guard in the source). -/
def PyVal.hasKey : PyVal → String → Bool
  | .dict es, k => (lookupKey es k).isSome
  | _, _ => false

/-- Python `str(v)` / `%s`-formatting, for the value shapes the client
actually formats (strings, numbers, None). -/
def PyVal.pyStr : PyVal → String
  | .none => "None"
  | .bool b => if b then "True" else "False"
  | .int n => toString n
  | .str s => s
  | .dict _ => "<dict>"
  | .list _ => "<list>"

/-- Wraps a string in double quotes, as the `"%s"` patterns of several
log format strings in the source do. -/
def quoted (s : String) : String := "\"" ++ s ++ "\""

/-- Log levels of the `logging` calls in the source. -/
inductive LogLevel where
  | debug
  | info
  | warning


/-- Observable effects of the client: log lines, socket.io emissions,
an explicit socket teardown, and playback-sink commands (mplayer
creation+loadfile, and quit). -/
inductive Eff where
  | log (lvl : LogLevel) (msg : String)
  | emitEvent (event : String) (params : PyVal)
  | socketDisconnect
  | playerStart (url : String)
  | playerQuit


/-- Instance state of DJClient (the attributes set in `__init__`).
The socket is modelled by `Option Bool`: `Option.none` is
`self._socket = None`, `some c` is a socket object whose `.connected`
flag is `c`. -/
structure ClientState where
  host : String
  port : Int
  socket : Option Bool
  roomData : PyVal
  lastNumAnonymous : Int
  player : Option String
  playAudio : Bool
  alsaDevice : Option String


/-- The method monad: a method transforms the client state, produces a
list of effects, and either returns a value or raises a Python
exception. Mutations and effects performed before an exception are
retained, as in Python. -/
def M (α : Type) : Type :=
  ClientState → Except PyErr α × ClientState × List Eff

namespace M

def pure' {α : Type} (a : α) : M α := fun s => (Except.ok a, s, [])

def bind' {α β : Type} (m : M α) (f : α → M β) : M β := fun s =>
  match m s with
  | (Except.ok a, s', effs) =>
      match f a s' with
      | (r, s'', effs') => (r, s'', effs ++ effs')
  | (Except.error e, s', effs) => (Except.error e, s', effs)

def throw' {α : Type} (e : PyErr) : M α := fun s => (Except.error e, s, [])

def tell (eff : Eff) : M Unit := fun s => (Except.ok (), s, [eff])

def get : M ClientState := fun s => (Except.ok s, s, [])

def modify (f : ClientState → ClientState) : M Unit :=
  fun s => (Except.ok (), f s, [])

def liftExcept {α : Type} : Except PyErr α → M α
  | .ok a => pure' a
  | .error e => throw' e

def log (lvl : LogLevel) (msg : String) : M Unit := tell (.log lvl msg)

end M

instance instMonadM : Monad M where
  pure := M.pure'
  bind := M.bind'

/-- Source `seconds_to_song_timestamp`: converts seconds to mm:ss.
Modelled on integers (the source truncates its argument with `int()`;
all inputs the client passes are non-negative). -/
def seconds_to_song_timestamp (seconds : Int) : String :=
  toString (seconds / 60) ++ ":" ++
    (if seconds % 60 < 10 then "0" ++ toString (seconds % 60)
     else toString (seconds % 60))

/-- Source property `DJClient.connected`:
`self._socket and self._socket.connected`. -/
def connected (s : ClientState) : Bool :=
  match s.socket with
  | some c => c
  | Option.none => false

/-- Source property `DJClient.in_room`:
`self.connected and (self._room_data is not None)`. -/
def in_room (s : ClientState) : Bool :=
  connected s &&
    (match s.roomData with
     | PyVal.none => false
     | _ => true)

/-- Source `DJClient.ensure_connected`: raises NotConnectedException
when not connected. -/
def ensure_connected (message : Option String) : M Unit := do
  let s ← M.get
  if connected s then pure () else M.throw' (.notConnected message)

/-- Source `DJClient.ensure_in_room`: ensures connected, then raises
NotInRoomException when not in a room. -/
def ensure_in_room (message : Option String) : M Unit := do
  ensure_connected message
  let s ← M.get
  if in_room s then pure () else M.throw' (.notInRoom message)

/-- Source `DJClient.__init__`: the attribute values a fresh client
holds. -/
def init (host : String) (port : Int) (play_audio : Bool)
    (alsa_device : Option String) : ClientState :=
  { host := host
    port := port
    socket := Option.none
    roomData := PyVal.none
    lastNumAnonymous := 0
    player := Option.none
    playAudio := play_audio
    alsaDevice := alsa_device }

/-- Source `DJClient.stream_url` property: ensures in a room, then
returns `http://host:port/stream/{shortname}/current` built from the
stored room data. -/
def stream_url : M String := do
  ensure_in_room Option.none
  let s ← M.get
  let sn ← M.liftExcept (s.roomData.getItem "shortname")
  pure ("http://" ++ s.host ++ ":" ++ toString s.port ++ "/stream/" ++
    sn.pyStr ++ "/current")

/-- Source `DJClient._stop_streaming`: no-op when no player exists,
otherwise quits the player and clears it. -/
def stop_streaming : M Unit := do
  let s ← M.get
  match s.player with
  | Option.none => pure ()
  | some _ => do
      M.log .debug "Stopping stream."
      M.tell .playerQuit
      M.modify fun st => { st with player := Option.none }

/-- Rendering of the mplayer argument tuple used in a debug log line of
`_start_streaming`. -/
def mplayerArgsStr (alsa : Option String) : String :=
  match alsa with
  | Option.none => "()"
  | some d => "(" ++ Char.toString (Char.ofNat 39) ++ "-ao" ++
      Char.toString (Char.ofNat 39) ++ ", " ++ Char.toString (Char.ofNat 39) ++
      "alsa:device=" ++ d ++ Char.toString (Char.ofNat 39) ++ ")"

/-- Source `DJClient._start_streaming`: returns immediately when audio
playback is disabled; stops any running player first; then creates an
mplayer instance and loads the URL. -/
def start_streaming (url : String) : M Unit := do
  let s ← M.get
  if !s.playAudio then pure ()
  else do
    (if s.player.isSome then stop_streaming else pure ())
    M.log .debug ("Playing stream: " ++ url)
    let s2 ← M.get
    M.log .debug ("Args for mplayer: " ++ mplayerArgsStr s2.alsaDevice)
    M.tell (.playerStart url)
    M.modify fun st => { st with player := some url }

/-- Source `DJClient._emit`: synchronous request wrapper. The reply
the server will deliver to the callback is passed in as `reply`; the
callback wrapper list `cb_data = [None]` holding it is modelled
explicitly, because the error check in the source tests
`isinstance(cb_data, dict)` on that wrapper list, not on the reply
`cb_data[0]`. -/
def emit (event_name : String) (params : PyVal) (ignore_error : Bool)
    (reply : PyVal) : M PyVal := do
  ensure_connected Option.none
  M.log .debug ("Emitting event " ++ quoted event_name)
  M.tell (.emitEvent event_name params)
  let cb_data := PyVal.list [reply]
  if !ignore_error && cb_data.isDict && cb_data.hasKey "error" then
    match cb_data.getItem "error" with
    | .ok v => M.throw' (.djError v)
    | .error e => M.throw' e
  else
    pure reply

/-- Source `DJClient.join_room`: ensures connected, emits `room:join`
with the short name, stores the reply as the room data, merges the
short name into it, and logs the joined room name at info level. -/
def join_room (shortname : PyVal) (reply : PyVal) : M Unit := do
  ensure_connected (some "You must be connected to join a room.")
  M.log .debug ("Joining room " ++ quoted shortname.pyStr ++ "...")
  let rd ← emit "room:join" shortname false reply
  M.modify fun st => { st with roomData := rd }
  let s ← M.get
  let rd2 ← M.liftExcept (s.roomData.setItem "shortname" shortname)
  M.modify fun st => { st with roomData := rd2 }
  let s2 ← M.get
  let nm ← M.liftExcept (s2.roomData.getItem "name")
  let nm2 ← M.liftExcept nm.strip
  M.log .info ("Joined room " ++ quoted nm2.pyStr)

/-- Source `DJClient.leave_room`: ensures connected, emits
`room:leave`, clears the room data and stops streaming. -/
def leave_room (reply : PyVal) : M Unit := do
  ensure_connected (some "You must be connected to leave a room.")
  let _ ← emit "room:leave" PyVal.none false reply
  M.modify fun st => { st with roomData := PyVal.none }
  stop_streaming

/-- Source `DJClient._on_disconnect`: logs, resets the anonymous count
to 0, drops the socket, and stops streaming. Room data is left
untouched. -/
def on_disconnect : M Unit := do
  let s ← M.get
  M.log .info ("Disconnected from DJ at " ++ s.host ++ ":" ++ toString s.port)
  M.modify fun st =>
    { st with lastNumAnonymous := 0, socket := Option.none }
  stop_streaming

/-- Source `DJClient.disconnect`: no-op when not connected, otherwise
tears down the socket and runs the disconnect handler. -/
def disconnect : M Unit := do
  let s ← M.get
  if !connected s then pure ()
  else do
    M.tell .socketDisconnect
    on_disconnect

/-- Source `DJClient._on_connect`: logs, stops any streaming, and when
room data from before a disconnect is still present, re-issues a join
for its stored short name. The reply the server would deliver to that
rejoin request is passed in as `rejoinReply`. Note the rejoin call is
not wrapped in any exception handling in the source. -/
def on_connect (rejoinReply : PyVal) : M Unit := do
  let s ← M.get
  M.log .info ("Connected to DJ at " ++ s.host ++ ":" ++ toString s.port)
  stop_streaming
  let s2 ← M.get
  if s2.roomData.truthy then do
    let sn ← M.liftExcept (s2.roomData.getItem "shortname")
    M.log .info "Rejoining last room..."
    join_room sn rejoinReply
  else
    pure ()

/-- Source `DJClient.connect`, modelling a successful establishment:
disconnects first if already connected, installs a fresh connected
socket, and dispatches the `connect` event to `_on_connect` (the
handler socket.io invokes once the connection is up). -/
def connect (rejoinReply : PyVal) : M Unit := do
  let s ← M.get
  (if connected s then disconnect else pure ())
  M.modify fun st => { st with socket := some true }
  on_connect rejoinReply

/-- Source `DJClient._on_kick`: clears the room data, logs (with or
without a reason), and stops streaming. -/
def on_kick (reason : Option String) : M Unit := do
  M.modify fun st => { st with roomData := PyVal.none }
  (match reason with
   | some r => M.log .info ("Kicked from the room. Reason: " ++ r)
   | Option.none => M.log .info "Kicked from the room.")
  stop_streaming

/-- Source `DJClient._on_num_anonymous`: returns silently when the
count equals the last received one; otherwise stores it and logs an
info notification with singular or plural phrasing. -/
def on_num_anonymous (num : Int) : M Unit := do
  let s ← M.get
  if num = s.lastNumAnonymous then pure ()
  else do
    M.modify fun st => { st with lastNumAnonymous := num }
    if num = 1 then
      M.log .info ("There is currently 1 anonymous listener in the room. " ++
        "It" ++ Char.toString (Char.ofNat 39) ++ "s probably this client.")
    else
      M.log .info ("There are currently " ++ toString num ++
        " anonymous listeners in the room.")

/-- Convenience for `_on_song_update`: Python
`if song_data[k] is not None: song_data[k] = song_data[k].strip()`. -/
def stripField (d : PyVal) (k : String) : Except PyErr PyVal :=
  match d.getItem k with
  | .error e => .error e
  | .ok PyVal.none => .ok d
  | .ok v =>
      match v.strip with
      | .error e => .error e
      | .ok v2 => d.setItem k v2

/-- Source `DJClient._on_song_update`: strips title/artist/album in the
payload dict, computes the attribution and elapsed-time phrases, logs
the now-playing info line, and — when the payload marks the song as
playing — starts streaming from the stream URL. Note the Python call
`self._start_streaming(self.stream_url)` evaluates the `stream_url`
property (which can raise) before `_start_streaming` checks the
play-audio flag. The source divides `song_data[elapsed]` (milliseconds)
by 1000.0 and compares with 1; on integer payloads that equals
comparing the milliseconds with 1000 as done here. -/
def on_song_update (song_data : PyVal) : M Unit := do
  let d1 ← M.liftExcept (stripField song_data "title")
  let d2 ← M.liftExcept (stripField d1 "artist")
  let d3 ← M.liftExcept (stripField d2 "album")
  let djv ← M.liftExcept (d3.getItem "dj")
  let dj ←
    if djv.truthy then do
      let u ← M.liftExcept (djv.getItem "username")
      let u2 ← M.liftExcept u.strip
      pure ("User " ++ u2.pyStr)
    else pure "The room"
  let elapsedv ← M.liftExcept (d3.getItem "elapsed")
  let elapsedMs ←
    match elapsedv with
    | PyVal.int n => pure n
    | _ => M.throw' PyErr.typeError
  let starting_at_msg :=
    if elapsedMs > 1000 then
      " starting from " ++ seconds_to_song_timestamp (elapsedMs / 1000)
    else ""
  let verb := if elapsedMs < 1000 then "started" else "is currently"
  let titlev ← M.liftExcept (d3.getItem "title")
  let artistv ← M.liftExcept (d3.getItem "artist")
  let durationv ← M.liftExcept (d3.getItem "duration")
  let durationSecs ←
    match durationv with
    | PyVal.int n => pure n
    | _ => M.throw' PyErr.typeError
  M.log .info (dj ++ " " ++ verb ++ " playing " ++ quoted titlev.pyStr ++
    " by " ++ artistv.pyStr ++ " (length: " ++
    seconds_to_song_timestamp durationSecs ++ ")" ++ starting_at_msg)
  let playingv ← M.liftExcept (d3.getItem "playing")
  if playingv.truthy then do
    let url ← stream_url
    start_streaming url
  else
    pure ()

/-- Source `DJClient._on_song_stop`: logs and stops streaming. -/
def on_song_stop : M Unit := do
  M.log .info "No song is currently playing."
  stop_streaming

/-- Info-level log messages of an effect trace (the notifications the
user sees at the default logging level). -/
def infoLogs (effs : List Eff) : List String :=
  effs.filterMap fun e =>
    match e with
    | .log .info m => some m
    | _ => Option.none

/-- Playback-sink commands of an effect trace. -/
def playerEffs (effs : List Eff) : List Eff :=
  effs.filter fun e =>
    match e with
    | .playerStart _ => true
    | .playerQuit => true
    | _ => false

/-- Network emissions of an effect trace. -/
def emitted (effs : List Eff) : List (String × PyVal) :=
  effs.filterMap fun e =>
    match e with
    | .emitEvent ev p => some (ev, p)
    | _ => Option.none

/-- Whether a trace contains a `room:join` emission carrying the given
short name. -/
def emitsJoinFor (effs : List Eff) (sn : String) : Bool :=
  effs.any fun e =>
    match e with
    | .emitEvent ev (.str p) => ev == "room:join" && p == sn
    | _ => false

/-- Substring occurrence test on character lists. -/
def containsSub (pat : List Char) : List Char → Bool
  | [] => pat.isEmpty
  | c :: rest => pat.isPrefixOf (c :: rest) || containsSub pat rest

/-- Substring test on strings. -/
def containsStr (s pat : String) : Bool :=
  containsSub pat.data s.data

/-- Connected fresh client used by the concrete evaluations: a client
for dj.example.com:80 whose socket is established. -/
def connectedClient : ClientState :=
  { init "dj.example.com" 80 true Option.none with socket := some true }

/-- Builder for a `room:song:update` payload dict with the fields the
handler reads, as listed in the event table of the specification. The
optional DJ is either absent (Python None) or a record holding a
username. -/
def mkSongData (title artist album : String) (duration elapsed : Int)
    (playing : Bool) (djUser : Option String) : PyVal :=
  PyVal.dict [("title", PyVal.str title), ("artist", PyVal.str artist),
    ("album", PyVal.str album), ("duration", PyVal.int duration),
    ("elapsed", PyVal.int elapsed), ("playing", PyVal.bool playing),
    ("dj", match djUser with
           | some u => PyVal.dict [("username", PyVal.str u)]
           | Option.none => PyVal.none)]

/-- Connected client that is in room "lounge", holds an active playback
session and a nonzero anonymous-listener count. -/
def roomClient : ClientState :=
  { connectedClient with
      roomData := PyVal.dict
        [("name", PyVal.str "Lounge"), ("shortname", PyVal.str "lounge")],
      player := some "http://dj.example.com:80/stream/lounge/current",
      lastNumAnonymous := 2 }

/-- Claim C1 (code bug witnessed at the failing input). The claim and
the specification say a `room:join` reply shaped `{error: msg}` makes
`join_room` raise the remote-error exception carrying `msg` and leave
room state untouched. The code instead never raises `DJError`, because
`_emit` tests `isinstance(cb_data, dict)` on the callback wrapper list
`cb_data = [None]` rather than on the reply `cb_data[0]`, so the dead
error branch is skipped: evaluated on a connected fresh client with
reply `{error: "room full"}`, `join_room` stores the error dict
(merged with the short name) as the room state and then raises
`KeyError("name")` from the success-path logging line. -/
theorem joinRoom_error_reply_stores_error_and_raises_keyError :
    join_room (PyVal.str "lounge")
        (PyVal.dict [("error", PyVal.str "room full")]) connectedClient =
      (Except.error (PyErr.keyError "name"),
       { connectedClient with
          roomData := PyVal.dict
            [("error", PyVal.str "room full"),
             ("shortname", PyVal.str "lounge")] },
       [Eff.log .debug "Joining room \"lounge\"...",
        Eff.log .debug "Emitting event \"room:join\"",
        Eff.emitEvent "room:join" (PyVal.str "lounge")]) := rfl

/-- Claim C2 (code bug witnessed at the failing input). The claim and
the specification say a failure of the automatic rejoin issued from the
connect handler is logged and absorbed and does not propagate out of
the connect path. The source calls `self.join_room(shortname)` from
`_on_connect` with no exception handling at all, so any rejoin failure
escapes the handler: evaluated on a connected client remembering room
"lounge" whose rejoin request is answered with `{error: "room full"}`,
the `KeyError("name")` raised inside `join_room` propagates out of
`_on_connect` as the result of the connect path. -/
theorem onConnect_rejoin_failure_propagates :
    on_connect (PyVal.dict [("error", PyVal.str "room full")])
        { connectedClient with
            roomData := PyVal.dict
              [("name", PyVal.str "Lounge"),
               ("shortname", PyVal.str "lounge")] } =
      (Except.error (PyErr.keyError "name"),
       { connectedClient with
          roomData := PyVal.dict
            [("error", PyVal.str "room full"),
             ("shortname", PyVal.str "lounge")] },
       [Eff.log .info "Connected to DJ at dj.example.com:80",
        Eff.log .info "Rejoining last room...",
        Eff.log .debug "Joining room \"lounge\"...",
        Eff.log .debug "Emitting event \"room:join\"",
        Eff.emitEvent "room:join" (PyVal.str "lounge")]) := rfl

/-- Claim C3: in every state where the client is in a room, handling an
unsolicited disconnect event resets the anonymous-listener count to 0
and stops playback while leaving the stored room data unchanged, and a
subsequent successful reconnect automatically emits a `room:join`
request carrying that room stored short name, with no caller
intervention. -/
theorem disconnect_preserves_room_and_reconnect_rejoins
    (s : ClientState) (entries : List (String × PyVal)) (sn : String)
    (r : PyVal)
    (hin : in_room s = true)
    (hroom : s.roomData = PyVal.dict entries)
    (hsn : lookupKey entries "shortname" = some (PyVal.str sn)) :
    (on_disconnect s).1 = Except.ok () ∧
    (on_disconnect s).2.1.lastNumAnonymous = 0 ∧
    (on_disconnect s).2.1.player = Option.none ∧
    (on_disconnect s).2.1.roomData = s.roomData ∧
    emitsJoinFor (connect r (on_disconnect s).2.1).2.2 sn = true := by
  obtain ⟨sh, sp, ss, sr, sl, spl, spa, sad⟩ := s
  simp only at hroom
  subst hroom
  cases entries with
  | nil => simp [lookupKey] at hsn
  | cons hd tl =>
    cases spl <;>
      simp [on_disconnect, connect, on_connect, disconnect, join_room, emit,
        ensure_connected, connected, stop_streaming, emitsJoinFor,
        PyVal.truthy, PyVal.getItem, PyVal.isDict, quoted,
        Bind.bind, instMonadM, M.bind', M.get, M.modify, M.log, M.tell,
        M.pure', M.throw', M.liftExcept, Pure.pure, hsn, PyVal.pyStr,
        List.any_append, List.any_cons]

/-- Witness for claim C3 at a concrete in-room state. -/
theorem disconnect_preserves_room_and_reconnect_rejoins_witness :
    (on_disconnect roomClient).1 = Except.ok () ∧
    (on_disconnect roomClient).2.1.lastNumAnonymous = 0 ∧
    (on_disconnect roomClient).2.1.player = Option.none ∧
    (on_disconnect roomClient).2.1.roomData = roomClient.roomData ∧
    emitsJoinFor (connect (PyVal.dict [("name", PyVal.str "Lounge")])
      (on_disconnect roomClient).2.1).2.2 "lounge" = true :=
  disconnect_preserves_room_and_reconnect_rejoins roomClient
    [("name", PyVal.str "Lounge"), ("shortname", PyVal.str "lounge")]
    "lounge" (PyVal.dict [("name", PyVal.str "Lounge")]) rfl rfl rfl

/-- Claim C4: for every short name and every reply, calling `join_room`
while disconnected raises NotConnectedException before any network
effect: the state is returned unchanged and the effect trace is empty,
so no `room:join` request is emitted. -/
theorem joinRoom_disconnected_raises_notConnected
    (sn reply : PyVal) (s : ClientState) (h : connected s = false) :
    join_room sn reply s =
      (Except.error
        (PyErr.notConnected (some "You must be connected to join a room.")),
       s, []) := by
  simp [join_room, ensure_connected, Bind.bind, instMonadM, M.bind', M.get,
    M.throw', M.pure', Pure.pure, h]

/-- Witness for claim C4 on a fresh (disconnected) client. -/
theorem joinRoom_disconnected_raises_notConnected_witness :
    connected (init "dj.example.com" 80 true Option.none) = false ∧
    join_room (PyVal.str "lounge")
        (PyVal.dict [("name", PyVal.str "Lounge")])
        (init "dj.example.com" 80 true Option.none) =
      (Except.error
        (PyErr.notConnected (some "You must be connected to join a room.")),
       init "dj.example.com" 80 true Option.none, []) :=
  ⟨rfl, joinRoom_disconnected_raises_notConnected _ _ _ rfl⟩

/-- Claim C5: handling a `room:song:update` event whose payload marks
the song as playing produces exactly one playback-start command when
the client is configured to play audio, preceded by exactly one stop
command precisely when a playback session was already running (a
single stop-then-start pair, never two concurrent sessions), and
produces no playback commands at all when audio is disabled. -/
theorem songUpdate_playing_starts_single_session
    (s : ClientState) (entries : List (String × PyVal)) (sn : String)
    (t a alb : String) (dur el : Int) (dj : Option String)
    (hconn : connected s = true)
    (hroom : s.roomData = PyVal.dict entries)
    (hsn : lookupKey entries "shortname" = some (PyVal.str sn)) :
    (on_song_update (mkSongData t a alb dur el true dj) s).1 =
      Except.ok () ∧
    (on_song_update (mkSongData t a alb dur el true dj) s).2.1.player =
      (if s.playAudio then
        some ("http://" ++ s.host ++ ":" ++ toString s.port ++ "/stream/" ++
          sn ++ "/current")
       else s.player) ∧
    playerEffs (on_song_update (mkSongData t a alb dur el true dj) s).2.2 =
      (if s.playAudio then
        (match s.player with
         | some _ =>
            [Eff.playerQuit,
             Eff.playerStart ("http://" ++ s.host ++ ":" ++ toString s.port ++
               "/stream/" ++ sn ++ "/current")]
         | Option.none =>
            [Eff.playerStart ("http://" ++ s.host ++ ":" ++ toString s.port ++
               "/stream/" ++ sn ++ "/current")])
       else []) := by
  obtain ⟨sh, sp, ss, sr, sl, spl, spa, sad⟩ := s
  simp only at hroom
  subst hroom
  match ss, hconn with
  | some true, _ =>
    cases dj <;> cases spa <;> cases spl <;>
      simp [on_song_update, stripField, mkSongData, stream_url,
        start_streaming, stop_streaming, ensure_in_room, ensure_connected,
        connected, in_room, playerEffs, seconds_to_song_timestamp,
        PyVal.getItem, PyVal.setItem, PyVal.strip, PyVal.truthy, PyVal.pyStr,
        setKey, lookupKey, quoted, Bind.bind, instMonadM, M.bind', M.get,
        M.modify, M.log, M.tell, M.pure', M.throw', M.liftExcept, Pure.pure,
        hsn]

/-- Witness for claim C5 on an in-room client with a running playback
session: the second playing update yields one stop-then-start pair. -/
theorem songUpdate_playing_starts_single_session_witness :
    (on_song_update (mkSongData "T" "A" "B" 185 63000 true (some "dave"))
        roomClient).1 = Except.ok () ∧
    (on_song_update (mkSongData "T" "A" "B" 185 63000 true (some "dave"))
        roomClient).2.1.player =
      some "http://dj.example.com:80/stream/lounge/current" ∧
    playerEffs (on_song_update
        (mkSongData "T" "A" "B" 185 63000 true (some "dave"))
        roomClient).2.2 =
      [Eff.playerQuit,
       Eff.playerStart "http://dj.example.com:80/stream/lounge/current"] := by
  exact songUpdate_playing_starts_single_session roomClient
    [("name", PyVal.str "Lounge"), ("shortname", PyVal.str "lounge")]
    "lounge" "T" "A" "B" 185 63000 (some "dave") rfl rfl rfl

/-- Claim C6: every transition that clears room membership or the
connection also stops playback: the kick handler, the disconnect
handler (which also serves the solicited `disconnect()` path), the
explicit `disconnect()` call when connected, `leave_room`, and the
`room:song:stop` handler all leave the client with no active playback
session, and the kick and leave paths additionally clear room
membership. -/
theorem room_clearing_paths_stop_playback
    (s : ClientState) (reason : Option String) (reply : PyVal)
    (hconn : connected s = true) :
    ((on_kick reason s).2.1.roomData = PyVal.none ∧
     (on_kick reason s).2.1.player = Option.none) ∧
    (on_disconnect s).2.1.player = Option.none ∧
    (disconnect s).2.1.player = Option.none ∧
    ((leave_room reply s).2.1.roomData = PyVal.none ∧
     (leave_room reply s).2.1.player = Option.none) ∧
    (on_song_stop s).2.1.player = Option.none := by
  obtain ⟨sh, sp, ss, sr, sl, spl, spa, sad⟩ := s
  match ss, hconn with
  | some true, _ =>
    cases spl <;> cases reason <;>
      simp [on_kick, on_disconnect, disconnect, leave_room, on_song_stop,
        emit, ensure_connected, stop_streaming, connected, Bind.bind,
        instMonadM, M.bind', M.get, M.modify, M.log, M.tell, M.pure',
        M.throw', Pure.pure, PyVal.isDict]

/-- Witness for claim C6 on an in-room client with a running playback
session. -/
theorem room_clearing_paths_stop_playback_witness :
    ((on_kick (some "spam") roomClient).2.1.roomData = PyVal.none ∧
     (on_kick (some "spam") roomClient).2.1.player = Option.none) ∧
    (on_disconnect roomClient).2.1.player = Option.none ∧
    (disconnect roomClient).2.1.player = Option.none ∧
    ((leave_room PyVal.none roomClient).2.1.roomData = PyVal.none ∧
     (leave_room PyVal.none roomClient).2.1.player = Option.none) ∧
    (on_song_stop roomClient).2.1.player = Option.none :=
  room_clearing_paths_stop_playback roomClient (some "spam") PyVal.none rfl

/-- Claim C7: a `room:num_anonymous` event produces an info
notification exactly when the reported count differs from the last
received one, updating the stored count in that case; handling the same
count immediately again produces no further notification, so two equal
events in a row yield exactly one notification when the count was
fresh. -/
theorem numAnonymous_notifies_iff_changed (s : ClientState) (num : Int) :
    (on_num_anonymous num s).1 = Except.ok () ∧
    ((infoLogs (on_num_anonymous num s).2.2).length =
       if num = s.lastNumAnonymous then 0 else 1) ∧
    ((on_num_anonymous num s).2.1.lastNumAnonymous =
       if num = s.lastNumAnonymous then s.lastNumAnonymous else num) ∧
    infoLogs (on_num_anonymous num (on_num_anonymous num s).2.1).2.2 = [] ∧
    ((infoLogs (on_num_anonymous num s).2.2).length +
       (infoLogs
         (on_num_anonymous num (on_num_anonymous num s).2.1).2.2).length =
       if num = s.lastNumAnonymous then 0 else 1) := by
  by_cases h : num = s.lastNumAnonymous
  · simp [on_num_anonymous, infoLogs, Bind.bind, instMonadM, M.bind', M.get,
      M.modify, M.log, M.tell, M.pure', Pure.pure, h]
  · by_cases h1 : num = 1
    · subst h1
      simp [on_num_anonymous, infoLogs, Bind.bind, instMonadM, M.bind', M.get,
        M.modify, M.log, M.tell, M.pure', Pure.pure, h]
    · simp [on_num_anonymous, infoLogs, Bind.bind, instMonadM, M.bind', M.get,
        M.modify, M.log, M.tell, M.pure', Pure.pure, h, h1]

/-- Claim C8: on a connected client, a successful `room:join` reply
`{name: "Lounge"}` for short name "lounge" stores the returned record
merged with the short name used, and produces exactly one info-level
notification, whose text contains "Lounge". -/
theorem joinRoom_success_merges_shortname_and_notifies
    (s : ClientState) (hconn : connected s = true) :
    (join_room (PyVal.str "lounge")
        (PyVal.dict [("name", PyVal.str "Lounge")]) s).1 = Except.ok () ∧
    (join_room (PyVal.str "lounge")
        (PyVal.dict [("name", PyVal.str "Lounge")]) s).2.1.roomData =
      PyVal.dict [("name", PyVal.str "Lounge"),
                  ("shortname", PyVal.str "lounge")] ∧
    infoLogs (join_room (PyVal.str "lounge")
        (PyVal.dict [("name", PyVal.str "Lounge")]) s).2.2 =
      ["Joined room \"Lounge\""] ∧
    containsStr "Joined room \"Lounge\"" "Lounge" = true := by
  obtain ⟨sh, sp, ss, sr, sl, spl, spa, sad⟩ := s
  match ss, hconn with
  | some true, _ =>
    refine ⟨?_, ?_, ?_, ?_⟩ <;>
      first
      | decide
      | simp [join_room, emit, ensure_connected, connected, infoLogs,
          PyVal.setItem, PyVal.getItem, PyVal.strip, PyVal.pyStr,
          PyVal.isDict, setKey, lookupKey, quoted, pyStrip, stripChars,
          Bind.bind, instMonadM, M.bind', M.get, M.modify, M.log, M.tell,
          M.pure', M.throw', M.liftExcept, Pure.pure]

/-- Witness for claim C8 on a concrete connected client. -/
theorem joinRoom_success_merges_shortname_and_notifies_witness :
    (join_room (PyVal.str "lounge")
        (PyVal.dict [("name", PyVal.str "Lounge")]) connectedClient).1 =
      Except.ok () ∧
    (join_room (PyVal.str "lounge")
        (PyVal.dict [("name", PyVal.str "Lounge")])
        connectedClient).2.1.roomData =
      PyVal.dict [("name", PyVal.str "Lounge"),
                  ("shortname", PyVal.str "lounge")] ∧
    infoLogs (join_room (PyVal.str "lounge")
        (PyVal.dict [("name", PyVal.str "Lounge")]) connectedClient).2.2 =
      ["Joined room \"Lounge\""] ∧
    containsStr "Joined room \"Lounge\"" "Lounge" = true :=
  joinRoom_success_merges_shortname_and_notifies connectedClient rfl

/-- Counterexample to claim C9 as stated: on a fresh client that is
neither connected nor holding room state, reading the stream URL raises
NotConnectedException, not the claimed NotInRoomException, because
`ensure_in_room` calls `ensure_connected` first. -/
theorem streamUrl_disconnected_raises_notConnected :
    connected (init "dj.example.com" 80 true Option.none) = false ∧
    (init "dj.example.com" 80 true Option.none).roomData = PyVal.none ∧
    stream_url (init "dj.example.com" 80 true Option.none) =
      (Except.error (PyErr.notConnected Option.none),
       init "dj.example.com" 80 true Option.none, []) :=
  ⟨rfl, rfl, rfl⟩

/-- Claim C9 as amended: reading the stream URL raises an exception
whenever the client is not both connected and holding room state —
NotConnectedException when disconnected and NotInRoomException when
connected without room state; consequently a `room:song:update` event
with playing true that arrives while connected but not in a room
raises NotInRoomException from the handler instead of starting
playback, and it does so even when audio playback is disabled, because
the URL is computed as the call argument before the play-audio flag is
checked. -/
theorem streamUrl_and_songUpdate_exceptions
    (s : ClientState) (t a alb : String) (dur el : Int) :
    (connected s = false →
      stream_url s = (Except.error (PyErr.notConnected Option.none), s, [])) ∧
    (connected s = true → s.roomData = PyVal.none →
      stream_url s = (Except.error (PyErr.notInRoom Option.none), s, []) ∧
      (on_song_update (mkSongData t a alb dur el true Option.none) s).1 =
        Except.error (PyErr.notInRoom Option.none) ∧
      playerEffs
        (on_song_update
          (mkSongData t a alb dur el true Option.none) s).2.2 = []) := by
  obtain ⟨sh, sp, ss, sr, sl, spl, spa, sad⟩ := s
  constructor
  · intro hc
    simp [stream_url, ensure_in_room, ensure_connected, in_room, Bind.bind,
      instMonadM, M.bind', M.get, M.throw', M.pure', M.liftExcept, Pure.pure,
      hc]
  · intro hc hroom
    simp only at hroom
    subst hroom
    refine ⟨?_, ?_, ?_⟩ <;>
      simp [stream_url, on_song_update, stripField, mkSongData, playerEffs,
        ensure_in_room, ensure_connected, in_room, seconds_to_song_timestamp,
        PyVal.getItem, PyVal.setItem, PyVal.strip, PyVal.truthy, PyVal.pyStr,
        setKey, lookupKey, quoted, Bind.bind, instMonadM, M.bind', M.get,
        M.throw', M.pure', M.log, M.tell, M.liftExcept, Pure.pure, hc]

/-- Witness for amended claim C9: the disconnected branch on a client
that went through a disconnect while in a room and therefore still
holds its preserved room state, and the connected-without-room branch
(with audio disabled) on a connected client with no room state. -/
theorem streamUrl_and_songUpdate_exceptions_witness :
    (stream_url { roomClient with socket := Option.none } =
      (Except.error (PyErr.notConnected Option.none),
       { roomClient with socket := Option.none }, [])) ∧
    (stream_url { connectedClient with playAudio := false } =
      (Except.error (PyErr.notInRoom Option.none),
       { connectedClient with playAudio := false }, []) ∧
     (on_song_update (mkSongData "T" "A" "B" 185 0 true Option.none)
        { connectedClient with playAudio := false }).1 =
       Except.error (PyErr.notInRoom Option.none) ∧
     playerEffs (on_song_update (mkSongData "T" "A" "B" 185 0 true Option.none)
        { connectedClient with playAudio := false }).2.2 = []) :=
  ⟨(streamUrl_and_songUpdate_exceptions
      { roomClient with socket := Option.none } "T" "A" "B" 185 0).1 rfl,
   (streamUrl_and_songUpdate_exceptions
      { connectedClient with playAudio := false } "T" "A" "B" 185 0).2
      rfl rfl⟩

/-- Claim C10: the last anonymous-listener count is 0 at construction
and reset to 0 by the disconnect handler, and in either of those states
a `room:num_anonymous` event reporting 0 is suppressed: it produces no
effect at all (in particular no notification) and leaves the state
unchanged. -/
theorem lastAnonymous_reset_suppresses_first_zero
    (host : String) (port : Int) (pa : Bool) (ad : Option String)
    (s : ClientState) :
    (init host port pa ad).lastNumAnonymous = 0 ∧
    on_num_anonymous 0 (init host port pa ad) =
      (Except.ok (), init host port pa ad, []) ∧
    (on_disconnect s).2.1.lastNumAnonymous = 0 ∧
    on_num_anonymous 0 (on_disconnect s).2.1 =
      (Except.ok (), (on_disconnect s).2.1, []) := by
  obtain ⟨sh, sp, ss, sr, sl, spl, spa, sad⟩ := s
  cases spl <;>
    simp [init, on_num_anonymous, on_disconnect, stop_streaming, Bind.bind,
      instMonadM, M.bind', M.get, M.modify, M.log, M.tell, M.pure', Pure.pure]

end DJ
